import Mathlib

/-
Verification development for the CAF (Course Approval Form) extraction pipeline.

The Python source under app/ is shallowly embedded below.  Strings are modelled
through their character lists (Lean strings are `structure String where data :
List Char` in this toolchain), so every Python `str` helper used by the code is
re-implemented over `List Char` with the exact CPython semantics, restricted to
the ASCII/whitespace behaviour the pipeline relies on (Python `str.lower`,
`str.isdigit`, `\d`, `[A-Za-z]` are Unicode-aware; the model fixes the ASCII
fragment, which is the fragment exercised by the code and its data).

External collaborators (pdfplumber, the OpenAI chat endpoint, json.loads,
pdf-to-image rasterisation) are modelled by their *outcomes*: the grid a page
yields (or a failure), the parsed-JSON value of the generative response (or
`none` when `json.loads` would raise), and whether any page images exist.
Everything downstream of those outcomes is translated from app/caf_parser.py
and app/ai_extractor.py.
-/

/-! ### Python string primitives (CPython semantics over `List Char`) -/

/-- Python `str.strip()` on the character list: drop whitespace on both ends. -/
def trimCh (cs : List Char) : List Char :=
  ((cs.dropWhile Char.isWhitespace).reverse.dropWhile Char.isWhitespace).reverse

/-- Python `s.strip()`. -/
def pyStrip (s : String) : String := ⟨trimCh s.data⟩

/-- Python `s.lower()` (ASCII fragment). -/
def pyLower (s : String) : String := ⟨s.data.map Char.toLower⟩

/-- Python substring containment `pat in s` (contiguous substring; `"" in s` is True). -/
def isSubstrCh (pat : List Char) : List Char → Bool
  | [] => pat.isEmpty
  | c :: cs => pat.isPrefixOf (c :: cs) || isSubstrCh pat cs

/-- Helper for `pySplitCh`: accumulate the current token (reversed in `acc`). -/
def pySplitChAux : List Char → List Char → List (List Char)
  | [], acc => if acc.isEmpty then [] else [acc.reverse]
  | c :: cs, acc =>
    if c.isWhitespace then
      if acc.isEmpty then pySplitChAux cs [] else acc.reverse :: pySplitChAux cs []
    else pySplitChAux cs (c :: acc)

/-- Python `s.split()` with no argument: split on whitespace runs, no empty tokens. -/
def pySplitCh (cs : List Char) : List (List Char) := pySplitChAux cs []

/-- Python `s.split()` returning strings. -/
def pySplitStr (s : String) : List String := (pySplitCh s.data).map (fun cs => ⟨cs⟩)

/-- Python `" ".join(xs)`. -/
def joinSpace : List String → String
  | [] => ""
  | [x] => x
  | x :: xs => x ++ " " ++ joinSpace xs

/-- Python `" ".join(s.split())`: collapse all whitespace runs to single spaces. -/
def collapseWs (s : String) : String := joinSpace (pySplitStr s)

/-- Python `s.replace(pat, "")` (all non-overlapping occurrences, left to right).
The fuel argument bounds recursion; callers pass `s.length + 1`, enough because
each step consumes at least one character (the pattern used is never empty). -/
def removeAllCh (pat : List Char) : Nat → List Char → List Char
  | 0, s => s
  | _ + 1, [] => []
  | fuel + 1, c :: cs =>
    if pat.isPrefixOf (c :: cs) then removeAllCh pat fuel (List.drop pat.length (c :: cs))
    else c :: removeAllCh pat fuel cs

/-- Python string `<` (lexicographic by code point, a proper prefix is smaller). -/
def charListLt : List Char → List Char → Bool
  | [], [] => false
  | [], _ :: _ => true
  | _ :: _, [] => false
  | a :: as, b :: bs => if a = b then charListLt as bs else decide (a < b)

/-! ### Field Splitter (app/caf_parser.py lines 20-60)

`COURSE_CODE_RE = ^[A-Za-z]{2,}\s*\d{2,}[A-Za-z0-9\-]*$` and the rule-1 prefix
regex `^([A-Za-z]{2,}\s*\d{2,}[A-Za-z0-9\-]*)\s*(.*)$` are embedded by maximal
munch, which coincides with the backtracking engine here: shrinking the letter
run leaves a letter where a digit is required, shrinking the space run leaves a
space, and the trailing class contains the digits, so greedy-maximal spans are
the unique successful decomposition whenever one exists. -/

/-- Match the regex prefix `[A-Za-z]{2,}\s*\d{2,}[A-Za-z0-9\-]*` against `cs`.
Returns `(group 1, remainder)` on success. -/
def rule1Split (cs : List Char) : Option (List Char × List Char) :=
  let p1 := cs.span (fun c => c.isAlpha)
  if p1.1.length < 2 then none
  else
    let p2 := p1.2.span (fun c => c.isWhitespace)
    let p3 := p2.2.span (fun c => c.isDigit)
    if p3.1.length < 2 then none
    else
      let p4 := p3.2.span (fun c => c.isAlpha || c.isDigit || c == '-')
      some (p1.1 ++ p2.1 ++ p3.1 ++ p4.1, p4.2)

/-- Full-string match of `COURSE_CODE_RE` (the rule-1 pattern anchored with `$`). -/
def courseCodeFullMatch (s : String) : Bool :=
  match rule1Split s.data with
  | some pr => pr.2.isEmpty
  | none => false

/-- Python `rest.lstrip(":-– ").strip()` where `rest` is regex group 2 together
with the `\s*` separator in front of it (the separator is whitespace, and the
lstrip character set contains the space, so stripping the combined remainder is
the same operation on the whitespace-collapsed input text). -/
def lstripSepStrip (cs : List Char) : String :=
  pyStrip ⟨cs.dropWhile (fun c => c == ':' || c == '-' || c == '–' || c == ' ')⟩

/-- First index `d` usable by rule 2 of `_split_course_number_title`: the regex
`^(.+?)\s*[-–]\s*(.+)$` on whitespace-collapsed text splits at the first dash
that is neither the first nor the last character (the non-greedy left group
needs one character, the trailing `.+` needs one). -/
def dashIdx (cs : List Char) : Option Nat :=
  (List.range cs.length).find? (fun d =>
    decide (1 ≤ d) && decide (d + 1 < cs.length) &&
    (cs.getD d ' ' == '-' || cs.getD d ' ' == '–'))

/-- Rule-2 split of the collapsed text: `(group1.strip(), group2.strip())`. -/
def dashSplit (text : String) : Option (String × String) :=
  (dashIdx text.data).map (fun d =>
    (pyStrip ⟨text.data.take d⟩, pyStrip ⟨text.data.drop (d + 1)⟩))

/-- `_split_course_number_title` (caf_parser.py lines 23-60), translated branch
by branch: rule 1 (code prefix), rule 2 (dash split), rule 3 (no digits), rule
4 (digit in first token), rule 5 (default). -/
def splitCourseNumberTitle (raw : String) : String × String :=
  if raw = "" then ("", "")
  else
    let text := collapseWs raw
    match rule1Split text.data with
    | some pr => (pyStrip ⟨pr.1⟩, lstripSepStrip pr.2)
    | none =>
      match dashSplit text with
      | some pr => if courseCodeFullMatch pr.1 then (pr.1, pr.2) else ("", text)
      | none =>
        if ¬ text.data.any (fun ch => ch.isDigit) then ("", text)
        else
          match pySplitStr text with
          | [] => ("", text)
          | p0 :: restP =>
            if p0.data.any (fun ch => ch.isDigit) then (p0, pyStrip (joinSpace restP))
            else ("", text)

/-! Spec-side splitter: §4.2 of the specification describes the same function
as an ordered list of partial heuristics with first match winning.  Each rule
is a separate partial function and `firstRule` is the generic first-hit
combinator; the refinement theorem for claim C3 equates this description with
the translated code. -/

/-- Spec rule 1: leading code shape (letters, optional whitespace, digits,
alphanumeric/hyphen continuation); remainder stripped of separators is title. -/
def specRule1 (text : String) : Option (String × String) :=
  (rule1Split text.data).map (fun pr => (pyStrip ⟨pr.1⟩, lstripSepStrip pr.2))

/-- Spec rule 2: split around the first eligible dash; left must match the code
shape, otherwise the whole text is the title. -/
def specRule2 (text : String) : Option (String × String) :=
  (dashSplit text).map (fun pr => if courseCodeFullMatch pr.1 then (pr.1, pr.2) else ("", text))

/-- Spec rule 3: a string without digits is all title. -/
def specRule3 (text : String) : Option (String × String) :=
  if text.data.any (fun ch => ch.isDigit) then none else some ("", text)

/-- Spec rule 4: first whitespace token containing a digit is the code. -/
def specRule4 (text : String) : Option (String × String) :=
  match pySplitStr text with
  | [] => none
  | p0 :: restP =>
    if p0.data.any (fun ch => ch.isDigit) then some (p0, pyStrip (joinSpace restP))
    else none

/-- First-match-wins combinator over an ordered rule list. -/
def firstRule : List (String → Option (String × String)) → String → Option (String × String)
  | [], _ => none
  | f :: fs, t =>
    match f t with
    | some r => some r
    | none => firstRule fs t

/-- The splitter as §4.2 words it: ordered heuristics, first match wins, with
the default rule (everything is title) as fallback; empty input gives two
empty strings. -/
def splitSpecOrdered (raw : String) : String × String :=
  if raw = "" then ("", "")
  else
    let text := collapseWs raw
    (firstRule [specRule1, specRule2, specRule3, specRule4] text).getD ("", text)

/-! ### Data model -/

/-- One course record, the dict shape built by both extraction paths
(caf_parser.py lines 185-205, ai_extractor.py lines 136-157).  Fields that the
code may leave as Python `None` are `Option`-typed. -/
structure CourseRecord where
  program : String
  year : Option Int
  term : String
  city : Option String
  country : Option String
  courseNumber : String
  courseTitle : String
  urCourseEquivalent : String
  discipline : String
  typeOfCredit : String
  usCredits : Option Int
  foreignCredits : Option Int
  linkCourseSearch : String
  linkToSyllabus : String
  students : String
  comments : String
  source : String
deriving DecidableEq

/-- All-blank record used to build concrete test records. -/
def blankRecord : CourseRecord :=
  { program := "", year := none, term := "", city := none, country := none,
    courseNumber := "", courseTitle := "", urCourseEquivalent := "",
    discipline := "", typeOfCredit := "", usCredits := none, foreignCredits := none,
    linkCourseSearch := "", linkToSyllabus := "", students := "", comments := "",
    source := "" }

/-- One directory entry after loading: `Program` name plus `City`/`Country`
cells (null cells are `none`). -/
structure RefProgram where
  program : String
  city : Option String
  country : Option String
deriving DecidableEq

/-! ### Field Normalizer (caf_parser.py lines 67-122) -/

/-- `looks_like_code` (lines 75-82): the first whitespace token of the stripped
string fully matches `COURSE_CODE_RE`. -/
def looksLikeCode (s : String) : Bool :=
  let t := pyStrip s
  if t = "" then false
  else
    match pySplitStr t with
    | [] => false
    | first :: _ => courseCodeFullMatch first

/-- CASE 1 condition (lines 97-101): no digit, more than 10 characters, not a
code shape.  `num` is the already-stripped Course Number. -/
def caseA (num : String) : Bool :=
  (!num.data.any Char.isDigit) && decide (num.data.length > 10) && !looksLikeCode num

/-- CASE 2 condition (line 104): the number field mentions "credit" and is not
a code shape. -/
def caseB (num : String) : Bool :=
  isSubstrCh "credit".data (pyLower num).data && !looksLikeCode num

/-- CASE 3 condition (lines 107-111): non-empty title that mentions "credit"
and is at most 20 characters. -/
def caseC (title : String) : Bool :=
  (title != "") && isSubstrCh "credit".data (pyLower title).data
    && decide (title.data.length ≤ 20)

/-- Per-row body of `_normalize_course_number_title_columns` (lines 84-121). -/
def normalizeRecord (r : CourseRecord) : CourseRecord :=
  let num := pyStrip r.courseNumber
  let title := pyStrip r.courseTitle
  if num = "" then r
  else if caseA num || caseB num || caseC title then
    let newTitle := if title ≠ "" ∧ caseC title = true then pyStrip (num ++ " " ++ title) else num
    { r with courseTitle := newTitle, courseNumber := "" }
  else r

/-- `_normalize_course_number_title_columns` over the whole frame (the
`df.empty` early return coincides with mapping over the empty list). -/
def normalizeStep (rows : List CourseRecord) : List CourseRecord :=
  rows.map normalizeRecord

/-! ### Credit-Type Classifier (caf_parser.py lines 176-183) -/

/-- The if/elif chain deciding `credit` from the stripped elective and
major/minor cell texts. -/
def classifyCredit (electiveVal majorVal : String) : String :=
  if electiveVal ≠ "" ∧ majorVal ≠ "" then "Major/Minor, Elective"
  else if electiveVal ≠ "" then "Elective"
  else if majorVal ≠ "" then "Major/Minor"
  else ""

/-- Classifier at cell level: a cell is a possibly-null string; the code reads
`(line[idx] or "").strip()` before the chain (lines 171-172). -/
def classifyCells (majorCell electiveCell : Option String) : String :=
  classifyCredit (pyStrip (electiveCell.getD "")) (pyStrip (majorCell.getD ""))

/-- Presence of a marker cell per §4.3: non-null and non-blank after trimming. -/
def presentCell (c : Option String) : Bool := decide (pyStrip (c.getD "") ≠ "")

/-- The §4.3 truth table, written from the spec text (precedence top to
bottom: both, only major/minor, only elective, neither). -/
def specCreditTable (mm el : Bool) : String :=
  if mm && el then "Major/Minor, Elective"
  else if mm then "Major/Minor"
  else if el then "Elective"
  else ""

/-! ### Structural Table Extractor (caf_parser.py lines 129-209)

pdfplumber is external: the model consumes the outcome of
`pdf.pages[0].extract_table()`.  `GridOutcome.failure` stands for any exception
raised while opening the document or reading the grid (swallowed by the
`except` at line 206); `.extracted none` is `extract_table()` returning None. -/

inductive GridOutcome
  | failure
  | extracted (table : Option (List (List (Option String))))

/-- Keyword list used to locate the identifier column (line 154). -/
def idKeywords : List String := ["Subject", "Number", "Title"]

/-- `find_col` (lines 147-152): first header index containing any keyword,
case-insensitively. -/
def findCol (header : List String) (keywords : List String) : Option Nat :=
  (List.range header.length).find? (fun i =>
    keywords.any (fun kw => isSubstrCh (pyLower kw).data (pyLower (header.getD i "")).data))

/-- Python `any(line)` over optional cell strings: true iff some cell is
non-null and non-empty. -/
def pyAnyCell (line : List (Option String)) : Bool :=
  line.any (fun c =>
    match c with
    | some s => s != ""
    | none => false)

/-- `(line[idx] or "").strip()` when the column was found, `""` otherwise;
reading past the end of the row raises IndexError (the `.error` case), which
the outer `except` turns into zero rows. -/
def cellAt (line : List (Option String)) : Option Nat → Except Unit String
  | none => Except.ok ""
  | some i =>
    if i < line.length then Except.ok (pyStrip ((line.getD i none).getD ""))
    else Except.error ()

/-- The record emitted for one table row (lines 185-205). -/
def ruleRecord (num title eqv credit comments : String) : CourseRecord :=
  { program := "", year := none, term := "", city := none, country := none,
    courseNumber := num, courseTitle := title, urCourseEquivalent := eqv,
    discipline := "", typeOfCredit := credit, usCredits := none, foreignCredits := none,
    linkCourseSearch := "", linkToSyllabus := "", students := "", comments := comments,
    source := "rule" }

/-- The row loop (lines 160-205) in the IndexError-propagating form. -/
def buildRuleRows (idxF idxE idxEl idxM idxC : Option Nat) :
    List (List (Option String)) → Except Unit (List CourseRecord)
  | [] => Except.ok []
  | line :: rest =>
    if ¬ pyAnyCell line then buildRuleRows idxF idxE idxEl idxM idxC rest
    else
      match cellAt line idxF with
      | Except.error e => Except.error e
      | Except.ok foreignRaw =>
        if foreignRaw = "" then buildRuleRows idxF idxE idxEl idxM idxC rest
        else
          match cellAt line idxE, cellAt line idxEl, cellAt line idxM, cellAt line idxC with
          | Except.ok eqv, Except.ok electiveVal, Except.ok majorVal, Except.ok comments =>
            (match buildRuleRows idxF idxE idxEl idxM idxC rest with
             | Except.ok rows =>
               Except.ok
                 (ruleRecord (splitCourseNumberTitle foreignRaw).1
                    (splitCourseNumberTitle foreignRaw).2 eqv
                    (classifyCredit electiveVal majorVal) comments :: rows)
             | Except.error e => Except.error e)
          | Except.error e, _, _, _ => Except.error e
          | _, Except.error e, _, _ => Except.error e
          | _, _, Except.error e, _ => Except.error e
          | _, _, _, Except.error e => Except.error e

/-- `header = [h.strip() if h else "" for h in table[0]]` (line 143). -/
def tableHeader (hdr : List (Option String)) : List String :=
  hdr.map (fun h => pyStrip (h.getD ""))

/-- Column resolution plus the row loop for a non-trivial table. -/
def tableRows (hdr : List (Option String)) (lines : List (List (Option String))) :
    Except Unit (List CourseRecord) :=
  let header := tableHeader hdr
  buildRuleRows (findCol header idKeywords)
    (findCol header ["UR Course Equivalent"])
    (findCol header ["Elective"])
    (findCol header ["Major"])
    (findCol header ["Comment"]) lines

/-- `_parse_caf_pdf_rule` (lines 129-209): empty/one-row grids and any internal
exception yield zero rows. -/
def parseCafPdfRule : GridOutcome → List CourseRecord
  | GridOutcome.failure => []
  | GridOutcome.extracted none => []
  | GridOutcome.extracted (some t) =>
    if t.length ≤ 1 then []
    else
      match t with
      | [] => []
      | hdr :: lines =>
        match tableRows hdr lines with
        | Except.ok rows => rows
        | Except.error _ => []

/-! ### Program-name matching (caf_parser.py lines 216-261)

`difflib.get_close_matches(value_norm, dir_norm, n=1, cutoff=0.6)` is embedded
below.  `SequenceMatcher` is modelled without junk handling: no junk predicate
is passed and autojunk only activates for a second sequence of length >= 200,
far beyond any program name, so the backward/forward junk extension loops in
`find_longest_match` never fire.  Ratios are compared exactly as rationals;
CPython compares correctly-rounded doubles, which agrees with the exact
comparison for the short strings involved here. -/

/-- Indices of occurrences of `c` in `b` within the window `[blo, bhi)` (the
`b2j` lookup restricted by the window, ascending). -/
def jIndices (b : List Char) (c : Char) (blo bhi : Nat) : List Nat :=
  (List.range b.length).filter (fun j =>
    decide (blo ≤ j) && decide (j < bhi) && (b.getD j ' ' == c))

/-- Inner loop of `find_longest_match` for one `i`: walk the `j` candidates,
recording run lengths `k = j2len[j-1] + 1` and updating the best triple when a
strictly longer run appears.  Returns the new `j2len` association list and the
best triple. -/
def flmScan (j2 : Nat → Nat) (i : Nat) :
    List Nat → (Nat × Nat × Nat) → List (Nat × Nat) →
    (List (Nat × Nat)) × (Nat × Nat × Nat)
  | [], best, acc => (acc, best)
  | j :: js, best, acc =>
    let k := (if j = 0 then 0 else j2 (j - 1)) + 1
    let best2 := if k > best.2.2 then (i + 1 - k, j + 1 - k, k) else best
    flmScan j2 i js best2 ((j, k) :: acc)

/-- `SequenceMatcher.find_longest_match` over `a[alo:ahi]` and `b[blo:bhi]`
without junk (see section comment). -/
def findLongestMatch (a b : List Char) (alo ahi blo bhi : Nat) : Nat × Nat × Nat :=
  ((List.range' alo (ahi - alo)).foldl
    (fun (st : (Nat → Nat) × (Nat × Nat × Nat)) i =>
      let scan := flmScan st.1 i (jIndices b (a.getD i ' ') blo bhi) st.2 []
      (fun j => (List.lookup j scan.1).getD 0, scan.2))
    ((fun _ => 0), (alo, blo, 0))).2

/-- Total size of all matching blocks (the recursive decomposition of
`get_matching_blocks`); only the sum enters the ratio.  Fuel bounds the
recursion depth; each recursive call strictly shrinks a window. -/
def mtGo (a b : List Char) : Nat → Nat → Nat → Nat → Nat → Nat
  | _, _, _, _, 0 => 0
  | alo, ahi, blo, bhi, fuel + 1 =>
    let m := findLongestMatch a b alo ahi blo bhi
    if m.2.2 = 0 then 0
    else
      mtGo a b alo m.1 blo m.2.1 fuel + m.2.2 +
        mtGo a b (m.1 + m.2.2) ahi (m.2.1 + m.2.2) bhi fuel

/-- Sum of matching-block sizes for the full sequences. -/
def matchingTotal (a b : List Char) : Nat :=
  mtGo a b 0 a.length 0 b.length (a.length + b.length + 1)

/-- `ratio()` as an exact rational `(numerator, denominator)`; both sequences
empty gives ratio 1.0 in difflib. -/
def ratioPair (x w : List Char) : Nat × Nat :=
  let t := x.length + w.length
  if t = 0 then (1, 1) else (2 * matchingTotal x w, t)

/-- `ratio() >= 0.6` (cutoff comparison, exact arithmetic: 0.6 = 3/5). -/
def ratioGeCutoff (x w : List Char) : Bool :=
  let p := ratioPair x w
  decide (5 * p.1 ≥ 3 * p.2)

/-- Tuple comparison `(ratio(x), x) > (ratio(y), y)` used by
`heapq.nlargest` on the scored candidates: ratio first, then the string by
code-point order. -/
def scoredGt (x y : String) (w : List Char) : Bool :=
  let px := ratioPair x.data w
  let py := ratioPair y.data w
  decide (px.1 * py.2 > py.1 * px.2) ||
    (decide (px.1 * py.2 = py.1 * px.2) && charListLt y.data x.data)

/-- `difflib.get_close_matches(word, possibilities, n=1, cutoff=0.6)`: keep
candidates with ratio >= 0.6, return the largest by `(score, string)`;
`nlargest` keeps the earliest among fully equal entries. -/
def getCloseMatches1 (word : String) (possibilities : List String) : Option String :=
  match possibilities.filter (fun x => ratioGeCutoff x.data word.data) with
  | [] => none
  | p :: ps => some (ps.foldl (fun best x => if scoredGt x best word.data then x else best) p)

/-- `_normalize_program_str` (lines 216-223): remove "Star icon", strip,
lowercase — note that internal whitespace is left untouched. -/
def normalizeProgramStr (x : String) : String :=
  pyLower (pyStrip ⟨removeAllCh "Star icon".data (x.data.length + 1) x.data⟩)

/-- Step 1 of `_match_program_name`: first directory entry whose normalized
name equals the normalized value. -/
def exactFind (valueNorm : String) (l : List String) : Option String :=
  l.find? (fun p => normalizeProgramStr p == valueNorm)

/-- Step 2 predicate: the token set of either side is contained in the other
(Python set inclusion; list membership is equivalent). -/
def tokenSubsetMatch (tokens : List String) (p : String) : Bool :=
  let ptoks := pySplitStr (normalizeProgramStr p)
  tokens.all (fun t => ptoks.contains t) || ptoks.all (fun t => tokens.contains t)

/-- Step 2 of `_match_program_name`: first token-inclusion hit. -/
def subsetFind (tokens : List String) (l : List String) : Option String :=
  l.find? (tokenSubsetMatch tokens)

/-- `_match_program_name` (lines 226-261): exact, then token inclusion, then
fuzzy; the fuzzy winner is mapped back to the first directory entry with that
normalized form. -/
def matchProgramName (value : String) (programList : List String) : Option String :=
  if value = "" then none
  else
    let valueNorm := normalizeProgramStr value
    let tokens := pySplitStr valueNorm
    if tokens.isEmpty then none
    else
      match exactFind valueNorm programList with
      | some p => some p
      | none =>
        match subsetFind tokens programList with
        | some p => some p
        | none =>
          match getCloseMatches1 valueNorm (programList.map normalizeProgramStr) with
          | some matchNorm => exactFind matchNorm programList
          | none => none

/-- Normalization as claim C6 words it: additionally collapse internal
whitespace.  Modelled from the spec text of §4.5 for comparison with the
code. -/
def normalizeProgramCollapse (x : String) : String :=
  collapseWs (normalizeProgramStr x)

/-- Resolution as claim C6 words it: the same exact / token-subset / fuzzy
order, but over the whitespace-collapsed normalization.  Modelled from the
spec text of §4.5 for comparison with the code. -/
def resolveClaimCollapse (value : String) (programList : List String) : Option String :=
  if value = "" then none
  else
    let valueNorm := normalizeProgramCollapse value
    let tokens := pySplitStr valueNorm
    if tokens.isEmpty then none
    else
      match programList.find? (fun p => normalizeProgramCollapse p == valueNorm) with
      | some p => some p
      | none =>
        match programList.find? (fun p =>
            let ptoks := pySplitStr (normalizeProgramCollapse p)
            tokens.all (fun t => ptoks.contains t) || ptoks.all (fun t => tokens.contains t)) with
        | some p => some p
        | none =>
          match getCloseMatches1 valueNorm (programList.map normalizeProgramCollapse) with
          | some matchNorm => programList.find? (fun p => normalizeProgramCollapse p == matchNorm)
          | none => none

/-! ### Generative extractor adapter (app/ai_extractor.py)

The chat completion endpoint and `json.loads` are external; the model consumes
the parse outcome of the (fence-stripped) response text: `none` when
`json.loads` raises — the exception is not caught anywhere in
`ai_extract_courses_from_pdf_bytes` or `parse_caf_pdf_hybrid` — and the JSON
value otherwise.  Values are restricted to the documented response shape of §6
(string, integer-or-null, array, object); Python would push other dynamic
types through `data.get(...) or ""` unchanged, but such responses are outside
the collaborator contract and outside this model. -/

inductive JVal
  | null
  | str (s : String)
  | int (n : Int)
  | bool (b : Bool)
  | arr (xs : List JVal)
  | obj (kvs : List (String × JVal))

/-- `data.get(k)` for object values (None when absent or not an object). -/
def JVal.lookupKey : JVal → String → Option JVal
  | JVal.obj kvs, k => kvs.lookup k
  | _, _ => none

/-- `data.get(k, "") or ""` for the string fields of the documented shape. -/
def pyGetStrOr (j : JVal) (k : String) : String :=
  match j.lookupKey k with
  | some (JVal.str s) => s
  | _ => ""

/-- `data.get("year")` under the integer-or-null shape. -/
def pyGetYear (j : JVal) : Option Int :=
  match j.lookupKey "year" with
  | some (JVal.int n) => some n
  | _ => none

/-- `data.get("courses", []) or []` under the array shape: a missing, null or
empty `courses` key yields zero courses without error. -/
def pyGetCourses (j : JVal) : List JVal :=
  match j.lookupKey "courses" with
  | some (JVal.arr xs) => xs
  | _ => []

/-- One adapted row (ai_extractor.py lines 136-157). -/
def courseRow (program term : String) (year : Option Int) (student : String)
    (c : JVal) : CourseRecord :=
  { program := program, year := year, term := term, city := none, country := none,
    courseNumber := pyGetStrOr c "course_number",
    courseTitle := pyGetStrOr c "course_title",
    urCourseEquivalent := pyGetStrOr c "ur_course_equiv",
    discipline := "",
    typeOfCredit := pyGetStrOr c "type_of_credit",
    usCredits := none, foreignCredits := none,
    linkCourseSearch := "", linkToSyllabus := "",
    students := student,
    comments := pyGetStrOr c "comments",
    source := "ai" }

/-- Row list built from a successfully parsed response (lines 129-158). -/
def aiExtractRows (j : JVal) : List CourseRecord :=
  (pyGetCourses j).map
    (courseRow (pyGetStrOr j "program") (pyGetStrOr j "term") (pyGetYear j)
      (pyGetStrOr j "student"))

/-- Outcome of the generative collaborator for one document: the rasteriser
produced no page images (lines 123-125 return `[]` without calling the model),
or a response whose JSON parse outcome is given. -/
inductive AiInput
  | noImages
  | response (parsed : Option JVal)

/-- Errors that escape `parse_caf_pdf_hybrid`. -/
inductive GenError
  | invalidJson
deriving DecidableEq

/-- `ai_extract_courses_from_pdf_bytes` (lines 119-158): an unparseable
response propagates; everything else adapts to rows. -/
def aiExtractCoursesFromPdf : AiInput → Except GenError (List CourseRecord)
  | AiInput.noImages => Except.ok []
  | AiInput.response none => Except.error GenError.invalidJson
  | AiInput.response (some j) => Except.ok (aiExtractRows j)

/-! ### Enrichment (caf_parser.py lines 293-328) -/

/-- `prog["Program"] = prog["Program"].astype(str).str.strip()` (line 304).
The directory is modelled with its `Program` column already present; deriving
it from a `Program Name` column (lines 297-303) happens before this step and
is outside the claims. -/
def dirClean (d : List RefProgram) : List RefProgram :=
  d.map (fun p => { p with program := pyStrip p.program })

/-- `Series.combine_first`: the directory-side value wherever it is non-null,
the record value otherwise (lines 322-324). -/
def combineFirst (dirVal fallback : Option String) : Option String :=
  match dirVal with
  | some v => some v
  | none => fallback

/-- Effect of the matched-merge on one record: a left join on the matched
program name against the cleaned directory, each matching directory row
producing one output row (pandas duplicates the record when several directory
rows share the matched name); no match leaves the record with null
directory-side cells. -/
def enrichOne (d : List RefProgram) (r : CourseRecord) : List CourseRecord :=
  match matchProgramName r.program ((dirClean d).map (fun p => p.program)) with
  | none => [r]
  | some m =>
    match (dirClean d).filter (fun p => p.program == m) with
    | [] => [r]
    | ps => ps.map (fun p =>
        { r with city := combineFirst p.city r.city,
                 country := combineFirst p.country r.country })

/-- Step 4 of the orchestrator: enrichment runs only when a directory was
supplied (line 293; the `Program` column always exists in the modelled rows). -/
def enrichStep (dirOpt : Option (List RefProgram)) (rows : List CourseRecord) :
    List CourseRecord :=
  match dirOpt with
  | none => rows
  | some d => rows.flatMap (enrichOne d)

/-! ### Filter and projection (caf_parser.py lines 330-349) -/

/-- `df["Type of Credit"] = df["Type of Credit"].fillna("").str.strip()`
(line 331); the modelled field is never null. -/
def stripToc (r : CourseRecord) : CourseRecord :=
  { r with typeOfCredit := pyStrip r.typeOfCredit }

/-- Strip the credit column then drop rows where it is empty (lines 330-332). -/
def filterStep (rows : List CourseRecord) : List CourseRecord :=
  (rows.map stripToc).filter (fun r => r.typeOfCredit != "")

/-- A cell of the output frame. -/
inductive Cell
  | null
  | str (s : String)
  | int (n : Int)
deriving DecidableEq

/-- The output frame: column names plus rows of cells. -/
structure DFrame where
  cols : List String
  rows : List (List Cell)
deriving DecidableEq

/-- `desired_order` (lines 335-342): the canonical 17-column schema. -/
def desiredOrder : List String :=
  ["Program", "Year", "Term", "City", "Country",
   "Course Number", "Course Title", "UR Course Equivalent",
   "Discipline", "Type of Credit",
   "US Credits", "Foreign Credits",
   "Link Course Search", "Link to Syllabus",
   "Students", "Comments", "_source"]

/-- Index of the first occurrence of a column name. -/
def colIndex : List String → String → Option Nat
  | [], _ => none
  | c :: cs, k => if c = k then some 0 else (colIndex cs k).map (· + 1)

/-- Value of a row at a named column (null when the column is absent). -/
def rowGet (cols : List String) (row : List Cell) (k : String) : Cell :=
  match colIndex cols k with
  | some i => row.getD i Cell.null
  | none => Cell.null

/-- One projected cell: `if col not in df.columns: df[col] = None` followed by
selection (lines 344-348). -/
def projCell (cols : List String) (row : List Cell) (c : String) : Cell :=
  if cols.contains c then rowGet cols row c else Cell.null

/-- `df = df[desired_order]` after inserting missing columns as null: exactly
the 17 canonical columns, in order. -/
def projectDF (df : DFrame) : DFrame :=
  { cols := desiredOrder,
    rows := df.rows.map (fun row => desiredOrder.map (projCell df.cols row)) }

/-- `None`-or-integer cell. -/
def cellOfInt : Option Int → Cell
  | none => Cell.null
  | some n => Cell.int n

/-- `None`-or-string cell. -/
def cellOfStr : Option String → Cell
  | none => Cell.null
  | some s => Cell.str s

/-- The dict built for a record, in insertion order (both builders emit the
same 17 keys in the canonical order). -/
def CourseRecord.toRow (r : CourseRecord) : List Cell :=
  [Cell.str r.program, cellOfInt r.year, Cell.str r.term,
   cellOfStr r.city, cellOfStr r.country,
   Cell.str r.courseNumber, Cell.str r.courseTitle, Cell.str r.urCourseEquivalent,
   Cell.str r.discipline, Cell.str r.typeOfCredit,
   cellOfInt r.usCredits, cellOfInt r.foreignCredits,
   Cell.str r.linkCourseSearch, Cell.str r.linkToSyllabus,
   Cell.str r.students, Cell.str r.comments, Cell.str r.source]

/-- `pd.DataFrame(rows)` for a non-empty record list: the dict keys, in
insertion order, become the columns. -/
def toDF (rows : List CourseRecord) : DFrame :=
  { cols := desiredOrder, rows := rows.map CourseRecord.toRow }

/-! ### Pipeline Orchestrator (caf_parser.py lines 268-349) -/

/-- `parse_caf_pdf_hybrid`: rule parse, generative fallback on zero rows,
early return of the column-less empty frame when both paths are empty, then
normalize, enrich, filter, project.  An unparseable generative response
propagates to the caller. -/
def parseCafPdfHybrid (grid : GridOutcome) (ai : AiInput)
    (dirOpt : Option (List RefProgram)) : Except GenError DFrame :=
  let rows := parseCafPdfRule grid
  match (if rows.isEmpty then aiExtractCoursesFromPdf ai else Except.ok rows) with
  | Except.error e => Except.error e
  | Except.ok rows2 =>
    if rows2.isEmpty then Except.ok { cols := [], rows := [] }
    else
      Except.ok (projectDF (toDF (filterStep (enrichStep dirOpt (normalizeStep rows2)))))

/-! ### Helper lemmas -/

/-- With no identifier column every line is skipped, so the row loop returns
zero rows without error. -/
theorem buildRuleRows_no_id (idxE idxEl idxM idxC : Option Nat) :
    ∀ lines, buildRuleRows none idxE idxEl idxM idxC lines = Except.ok [] := by
  intro lines
  induction lines with
  | nil => rfl
  | cons line rest ih =>
    unfold buildRuleRows
    by_cases h : pyAnyCell line
    · simp [h, cellAt, ih]
    · simp [h, ih]

/-- Reading a projected row at a canonical column returns the projected cell
for that column. -/
theorem rowGet_projRow (g : String → Cell) (c : String) (hc : c ∈ desiredOrder) :
    rowGet desiredOrder (desiredOrder.map g) c = g c := by
  fin_cases hc <;> rfl

/-! ### Claim C3 -/

/-- Claim C3 (confirmed): the Field Splitter applies the five §4.2 heuristics
in order with the first matching rule deciding the output (formalised by the
equality with `splitSpecOrdered`, the explicit first-match-wins reading of the
spec, where rule 1 permits the whitespace between the letter and digit runs
that its own `"STAT 1003"` example exhibits), empty input yields two empty
strings, and the three quoted examples evaluate as stated. -/
theorem C3_splitter_ordered_rules :
    (∀ raw, splitCourseNumberTitle raw = splitSpecOrdered raw)
  ∧ splitCourseNumberTitle "STAT 1003 - Calculus I" = ("STAT 1003", "Calculus I")
  ∧ splitCourseNumberTitle "Introduction to Microeconomics" = ("", "Introduction to Microeconomics")
  ∧ splitCourseNumberTitle "ECON101 Macro" = ("ECON101", "Macro")
  ∧ splitCourseNumberTitle "" = ("", "") := by
  refine ⟨?_, by decide, by decide, by decide, by decide⟩
  intro raw
  by_cases h : raw = ""
  · simp [splitCourseNumberTitle, splitSpecOrdered, h]
  · simp only [splitCourseNumberTitle, splitSpecOrdered, if_neg h, firstRule,
      specRule1, specRule2, specRule3, specRule4]
    cases h1 : rule1Split (collapseWs raw).data with
    | some pr => simp [h1]
    | none =>
      simp only [h1, Option.map_none']
      cases h2 : dashSplit (collapseWs raw) with
      | some pr => simp [h2]
      | none =>
        simp only [h2, Option.map_none']
        by_cases h3 : (collapseWs raw).data.any (fun ch => ch.isDigit)
        · simp only [h3, if_pos, if_neg, not_true, ite_false, if_true]
          cases h4 : pySplitStr (collapseWs raw) with
          | nil => simp
          | cons p0 restP =>
            by_cases h5 : p0.data.any (fun ch => ch.isDigit)
            · simp [h5]
            · simp [h5]
        · simp [h3]

/-! ### Claim C8 -/

/-- Claim C8 (confirmed): for every pair of optional marker cells, with a cell
present iff non-null and non-blank after trimming, the classifier returns
exactly the §4.3 truth table: both present, only major/minor, only elective,
neither; it is a total Lean function, hence free of side effects. -/
theorem C8_classifier_truth_table :
    ∀ (mm el : Option String),
      classifyCells mm el = specCreditTable (presentCell mm) (presentCell el) := by
  intro mm el
  by_cases h1 : pyStrip (mm.getD "") = "" <;> by_cases h2 : pyStrip (el.getD "") = "" <;>
    simp [classifyCells, classifyCredit, specCreditTable, presentCell, h1, h2]

/-! ### Claim C9 -/

/-- Claim C9 (confirmed): the PROJECT step emits exactly the 17 canonical
columns in the fixed order, reads a null cell for any column absent upstream,
and running PROJECT on an already-projected frame changes nothing. -/
theorem C9_project_schema :
    (∀ df : DFrame, (projectDF df).cols = desiredOrder)
  ∧ (∀ (df : DFrame) (row : List Cell) (c : String),
      c ∈ desiredOrder → df.cols.contains c = false →
      rowGet desiredOrder (desiredOrder.map (projCell df.cols row)) c = Cell.null)
  ∧ (∀ df : DFrame, projectDF (projectDF df) = projectDF df) := by
  refine ⟨fun df => rfl, ?_, ?_⟩
  · intro df row c hc hoc
    rw [rowGet_projRow _ _ hc]
    simp only [projCell, hoc]
    simp
  · intro df
    unfold projectDF
    congr 1
    rw [List.map_map]
    refine List.map_congr_left (fun row _ => ?_)
    simp only [Function.comp]
    refine List.map_congr_left (fun c hc => ?_)
    fin_cases hc <;> rfl

/-- Witness for claim C9: a frame with a single foreign column projects the
`Program` column (and every other canonical column) to null. -/
theorem C9_project_schema_witness :
    rowGet desiredOrder (desiredOrder.map (projCell ["Foo"] [Cell.str "x"])) "Program"
      = Cell.null :=
  C9_project_schema.2.1 { cols := ["Foo"], rows := [[Cell.str "x"]] } [Cell.str "x"] "Program"
    (by decide) (by decide)

/-! ### Claim C10 -/

/-- Claim C10 (confirmed): when the structural parse and the generative
fallback both yield zero records, `parse_caf_pdf_hybrid` returns the empty
frame immediately; the later stages are skipped and the result does not carry
the 17 canonical columns. -/
theorem C10_double_empty_short_circuit :
    (∀ grid ai dirOpt, parseCafPdfRule grid = [] →
        aiExtractCoursesFromPdf ai = Except.ok [] →
        parseCafPdfHybrid grid ai dirOpt = Except.ok { cols := [], rows := [] })
  ∧ (DFrame.mk [] []).cols ≠ desiredOrder := by
  constructor
  · intro grid ai dirOpt h1 h2
    simp [parseCafPdfHybrid, h1, h2]
  · decide

/-- Witness for claim C10: a failed grid with no page images returns the
column-less empty frame. -/
theorem C10_double_empty_short_circuit_witness :
    parseCafPdfHybrid GridOutcome.failure AiInput.noImages none
      = Except.ok { cols := [], rows := [] } :=
  C10_double_empty_short_circuit.1 GridOutcome.failure AiInput.noImages none rfl rfl

/-! ### Claim C7 -/

/-- Claim C7 (confirmed): the structural parse never surfaces an error — a
failed grid read, a missing grid, an empty or one-row grid, a missing
identifier column, and an internal row-reading exception all yield zero rows —
and zero structural rows is exactly the condition consulting the generative
fallback: with structural rows present the hybrid result ignores the
generative outcome, and with zero structural rows it depends only on it. -/
theorem C7_structural_parse_absorbs_errors :
    (parseCafPdfRule GridOutcome.failure = [])
  ∧ (parseCafPdfRule (GridOutcome.extracted none) = [])
  ∧ (∀ t, t.length ≤ 1 → parseCafPdfRule (GridOutcome.extracted (some t)) = [])
  ∧ (∀ hdr lines, findCol (tableHeader hdr) idKeywords = none →
        parseCafPdfRule (GridOutcome.extracted (some (hdr :: lines))) = [])
  ∧ (∀ hdr lines, tableRows hdr lines = Except.error () →
        parseCafPdfRule (GridOutcome.extracted (some (hdr :: lines))) = [])
  ∧ (∀ grid ai ai2 dirOpt, parseCafPdfRule grid ≠ [] →
        parseCafPdfHybrid grid ai dirOpt = parseCafPdfHybrid grid ai2 dirOpt)
  ∧ (∀ g1 g2 ai dirOpt, parseCafPdfRule g1 = [] → parseCafPdfRule g2 = [] →
        parseCafPdfHybrid g1 ai dirOpt = parseCafPdfHybrid g2 ai dirOpt) := by
  refine ⟨rfl, rfl, ?_, ?_, ?_, ?_, ?_⟩
  · intro t h
    simp [parseCafPdfRule, h]
  · intro hdr lines hfind
    by_cases hl : (hdr :: lines).length ≤ 1
    · have hnil : lines = [] := by
        cases lines with
        | nil => rfl
        | cons a as => simp at hl
      subst hnil
      simp [parseCafPdfRule]
    · simp [parseCafPdfRule, hl, tableRows, hfind, buildRuleRows_no_id]
  · intro hdr lines herr
    by_cases hl : (hdr :: lines).length ≤ 1
    · have hnil : lines = [] := by
        cases lines with
        | nil => rfl
        | cons a as => simp at hl
      subst hnil
      simp [parseCafPdfRule]
    · simp [parseCafPdfRule, hl, herr]
  · intro grid ai ai2 dirOpt h
    match h2 : parseCafPdfRule grid with
    | [] => exact absurd h2 h
    | r :: rs => simp [parseCafPdfHybrid, h2]
  · intro g1 g2 ai dirOpt h1 h2
    simp [parseCafPdfHybrid, h1, h2]

/-- Witness for claim C7: concrete instances of each conditional conjunct — a
one-row grid, a grid without identifier column, a grid whose second row is
shorter than the identifier index (IndexError inside the loop), a parsable
grid making the hybrid ignore the generative outcome, and two empty structural
outcomes giving identical hybrid results. -/
theorem C7_structural_parse_absorbs_errors_witness :
    parseCafPdfRule (GridOutcome.extracted (some [[some "Subject"]])) = []
  ∧ parseCafPdfRule (GridOutcome.extracted (some [[some "Program"], [some "r"]])) = []
  ∧ parseCafPdfRule (GridOutcome.extracted (some [[some "x", some "Subject"], [some "A"]])) = []
  ∧ parseCafPdfHybrid
        (GridOutcome.extracted (some [[some "Subject", some "Elective"], [some "STAT 1003", some "sig"]]))
        AiInput.noImages none
      = parseCafPdfHybrid
          (GridOutcome.extracted (some [[some "Subject", some "Elective"], [some "STAT 1003", some "sig"]]))
          (AiInput.response none) none
  ∧ parseCafPdfHybrid GridOutcome.failure AiInput.noImages none
      = parseCafPdfHybrid (GridOutcome.extracted none) AiInput.noImages none :=
  ⟨C7_structural_parse_absorbs_errors.2.2.1 [[some "Subject"]] (by decide),
   C7_structural_parse_absorbs_errors.2.2.2.1 [some "Program"] [[some "r"]] (by decide),
   C7_structural_parse_absorbs_errors.2.2.2.2.1 [some "x", some "Subject"] [[some "A"]] rfl,
   C7_structural_parse_absorbs_errors.2.2.2.2.2.1 _ AiInput.noImages (AiInput.response none) none
     (by decide),
   C7_structural_parse_absorbs_errors.2.2.2.2.2.2 GridOutcome.failure (GridOutcome.extracted none)
     AiInput.noImages none rfl rfl⟩

/-! ### Claim C2 -/

/-- Counterexample to claim C2 as stated: with the structural parse empty, a
valid-JSON response that merely lacks the `courses` key does not raise — the
adapter defaults to zero courses and the hybrid returns the empty frame with
`Except.ok`, not an error that propagates to the caller. -/
theorem C2_counterexample :
    parseCafPdfHybrid GridOutcome.failure
        (AiInput.response (some (JVal.obj [("program", JVal.str "DIS Copenhagen")]))) none
      = Except.ok { cols := [], rows := [] } := rfl

/-- Claim C2 (corrected): for a document routed to the generative fallback, a
response that is not valid JSON raises an error that propagates out of
`parse_caf_pdf_hybrid`; but a valid JSON response lacking the `courses` key is
treated as zero courses and returns an empty result without error; zero
structural rows by itself never raises (with structural rows present the
hybrid always returns a frame). -/
theorem C2_generative_error_policy :
    (∀ grid dirOpt, parseCafPdfRule grid = [] →
        parseCafPdfHybrid grid (AiInput.response none) dirOpt
          = Except.error GenError.invalidJson)
  ∧ (∀ grid dirOpt j, parseCafPdfRule grid = [] → JVal.lookupKey j "courses" = none →
        parseCafPdfHybrid grid (AiInput.response (some j)) dirOpt
          = Except.ok { cols := [], rows := [] })
  ∧ (∀ grid ai dirOpt, parseCafPdfRule grid ≠ [] →
        ∃ df, parseCafPdfHybrid grid ai dirOpt = Except.ok df) := by
  refine ⟨?_, ?_, ?_⟩
  · intro grid dirOpt h
    simp [parseCafPdfHybrid, h, aiExtractCoursesFromPdf]
  · intro grid dirOpt j h hc
    simp [parseCafPdfHybrid, h, aiExtractCoursesFromPdf, aiExtractRows, pyGetCourses, hc]
  · intro grid ai dirOpt h
    match h2 : parseCafPdfRule grid with
    | [] => exact absurd h2 h
    | r :: rs =>
      refine ⟨projectDF (toDF (filterStep (enrichStep dirOpt (normalizeStep (r :: rs))))), ?_⟩
      simp [parseCafPdfHybrid, h2]

/-- Witness for claim C2: an invalid response propagates as an error, a
`courses`-less object gives the empty frame, and a parsable grid yields a
frame regardless of the generative outcome. -/
theorem C2_generative_error_policy_witness :
    parseCafPdfHybrid GridOutcome.failure (AiInput.response none) none
      = Except.error GenError.invalidJson
  ∧ parseCafPdfHybrid GridOutcome.failure (AiInput.response (some (JVal.obj []))) none
      = Except.ok { cols := [], rows := [] }
  ∧ ∃ df, parseCafPdfHybrid
        (GridOutcome.extracted (some [[some "Subject", some "Elective"], [some "STAT 1003", some "sig"]]))
        AiInput.noImages none = Except.ok df :=
  ⟨C2_generative_error_policy.1 GridOutcome.failure none rfl,
   C2_generative_error_policy.2.1 GridOutcome.failure none (JVal.obj []) rfl rfl,
   C2_generative_error_policy.2.2 _ AiInput.noImages none (by decide)⟩

/-! ### Claim C1 -/

/-- Counterexample to claim C1: a record whose City/Country are already
non-empty before enrichment is overwritten by the matched directory entry —
`combine_first` prefers the directory side wherever it is non-null, so the
ENRICH step is not first-writer-wins. -/
theorem C1_counterexample :
    enrichStep
        (some [{ program := "Alps Program", city := some "Copenhagen", country := some "Denmark" }])
        [{ blankRecord with program := "Alps Program", city := some "Paris", country := some "France" }]
      = [{ blankRecord with program := "Alps Program", city := some "Copenhagen", country := some "Denmark" }]
  ∧ ({ blankRecord with
        program := "Alps Program", city := some "Paris",
        country := some "France" } : CourseRecord).city = some "Paris" := by
  refine ⟨by decide, by decide⟩

/-- Claim C1 (corrected): enrichment is directory-writer-wins, not
first-writer-wins — for a matched record each City/Country is set to
`combine_first` of the directory value over the record value, so a non-null
directory value overwrites even a non-empty record field, and the record value
survives only where the directory side is null; an unmatched record is left
unchanged. -/
theorem C1_enrichment_directory_wins :
    (∀ (d : List RefProgram) (r : CourseRecord),
        matchProgramName r.program ((dirClean d).map (fun p => p.program)) = none →
        enrichStep (some d) [r] = [r])
  ∧ (∀ (d : List RefProgram) (r : CourseRecord) (m : String) (p : RefProgram),
        matchProgramName r.program ((dirClean d).map (fun p => p.program)) = some m →
        (dirClean d).filter (fun p => p.program == m) = [p] →
        enrichStep (some d) [r] =
          [{ r with city := combineFirst p.city r.city,
                    country := combineFirst p.country r.country }])
  ∧ (∀ (c : String) (x : Option String), combineFirst (some c) x = some c) := by
  refine ⟨?_, ?_, fun c x => rfl⟩
  · intro d r h
    simp [enrichStep, enrichOne, h]
  · intro d r m p hm hp
    simp [enrichStep, enrichOne, hm, hp]

/-- Witness for claim C1: a matched record keeps its own Country where the
directory is null but loses its City to the non-null directory value, and a
record normalizing to no tokens is left unchanged. -/
theorem C1_enrichment_directory_wins_witness :
    enrichStep (some [{ program := "Harbor Institute", city := some "Oslo", country := none }])
        [{ blankRecord with
            program := "Harbor Institute", city := some "Rome",
            country := some "Italy" }]
      = [{ blankRecord with
            program := "Harbor Institute", city := some "Oslo",
            country := some "Italy" }]
  ∧ enrichStep (some [{ program := "Harbor Institute", city := some "Oslo", country := none }])
        [{ blankRecord with program := "Star icon" }]
      = [{ blankRecord with program := "Star icon" }] := by
  refine ⟨?_, ?_⟩
  · exact C1_enrichment_directory_wins.2.1 _ _ "Harbor Institute"
      { program := "Harbor Institute", city := some "Oslo", country := none }
      (by decide) (by decide)
  · exact C1_enrichment_directory_wins.1 _ _ (by decide)

/-! ### Claim C4 -/

/-- Counterexample to claim C4: on a record satisfying both Case A (long
digit-free non-code CourseNumber) and Case C (short credit-only CourseTitle),
the normalizer performs the Case-C merge, not the Case-A move the claimed
precedence would require — the output title carries the old title appended. -/
theorem C4_counterexample :
    normalizeRecord { blankRecord with
        courseNumber := "Introduction to Sociology",
        courseTitle := "(4 credits)" }
      = { blankRecord with
          courseNumber := "",
          courseTitle := "Introduction to Sociology (4 credits)" }
  ∧ caseA "Introduction to Sociology" = true
  ∧ caseC "(4 credits)" = true
  ∧ ("Introduction to Sociology (4 credits)" : String) ≠ "Introduction to Sociology" := by
  refine ⟨by decide, by decide, by decide, by decide⟩

/-- Claim C4 (corrected): exactly one repair is applied per record and records
with empty (stripped) CourseNumber are unchanged, but when Case A or B holds
together with Case C the Case-C merge wins (new title = CourseNumber + " " +
CourseTitle); the pure A/B move (title replaced by CourseNumber) applies only
when the Case-C title condition fails. -/
theorem C4_normalizer_cases :
    (∀ r : CourseRecord, pyStrip r.courseNumber = "" → normalizeRecord r = r)
  ∧ (∀ r : CourseRecord,
        pyStrip r.courseNumber ≠ "" →
        (caseA (pyStrip r.courseNumber) || caseB (pyStrip r.courseNumber)) = true →
        caseC (pyStrip r.courseTitle) = true →
        normalizeRecord r = { r with
          courseTitle := pyStrip (pyStrip r.courseNumber ++ " " ++ pyStrip r.courseTitle),
          courseNumber := "" })
  ∧ (∀ r : CourseRecord,
        pyStrip r.courseNumber ≠ "" →
        (caseA (pyStrip r.courseNumber) || caseB (pyStrip r.courseNumber)) = true →
        caseC (pyStrip r.courseTitle) = false →
        normalizeRecord r = { r with courseTitle := pyStrip r.courseNumber, courseNumber := "" })
  ∧ (∀ r : CourseRecord,
        pyStrip r.courseNumber ≠ "" →
        caseA (pyStrip r.courseNumber) = false → caseB (pyStrip r.courseNumber) = false →
        caseC (pyStrip r.courseTitle) = true →
        normalizeRecord r = { r with
          courseTitle := pyStrip (pyStrip r.courseNumber ++ " " ++ pyStrip r.courseTitle),
          courseNumber := "" }) := by
  refine ⟨?_, ?_, ?_, ?_⟩
  · intro r h
    simp [normalizeRecord, h]
  · intro r h hab hc
    have ht : pyStrip r.courseTitle ≠ "" := by
      have := hc
      simp [caseC, Bool.and_eq_true] at this
      exact this.1.1
    simp [normalizeRecord, h, hab, hc, ht]
  · intro r h hab hc
    simp [normalizeRecord, h, hab, hc]
  · intro r h ha hb hc
    have ht : pyStrip r.courseTitle ≠ "" := by
      have := hc
      simp [caseC, Bool.and_eq_true] at this
      exact this.1.1
    simp [normalizeRecord, h, ha, hb, hc, ht]

/-- Witness for claim C4: the empty-number no-op, an A-and-C record merging,
an A-only record moving its text, and a C-only record merging. -/
theorem C4_normalizer_cases_witness :
    normalizeRecord blankRecord = blankRecord
  ∧ normalizeRecord { blankRecord with
        courseNumber := "Modern European History Survey",
        courseTitle := "(6 credits)" }
      = { blankRecord with
          courseNumber := "",
          courseTitle := "Modern European History Survey (6 credits)" }
  ∧ normalizeRecord { blankRecord with courseNumber := "Intensive French Language and Culture Course" }
      = { blankRecord with
          courseNumber := "",
          courseTitle := "Intensive French Language and Culture Course" }
  ∧ normalizeRecord { blankRecord with courseNumber := "MATH200", courseTitle := "(4 credits)" }
      = { blankRecord with courseNumber := "", courseTitle := "MATH200 (4 credits)" } := by
  refine ⟨C4_normalizer_cases.1 blankRecord rfl, ?_, ?_, ?_⟩
  · exact C4_normalizer_cases.2.1 _ (by decide) (by decide) (by decide)
  · exact C4_normalizer_cases.2.2.1 _ (by decide) (by decide) (by decide)
  · exact C4_normalizer_cases.2.2.2 _ (by decide) (by decide) (by decide) (by decide)

/-! ### Claim C5 -/

/-- Counterexample to claim C5: the generative path passes `type_of_credit`
through unchecked, so a non-empty value outside the three literals survives
the filter and appears in the final frame. -/
theorem C5_counterexample :
    (match parseCafPdfHybrid GridOutcome.failure
        (AiInput.response (some (JVal.obj
          [("program", JVal.str ""),
           ("courses", JVal.arr [JVal.obj
             [("course_number", JVal.str "X1"),
              ("type_of_credit", JVal.str "Approved")]])]))) none with
     | Except.ok df => df.rows.map (fun row => rowGet df.cols row "Type of Credit")
     | Except.error _ => []) = [Cell.str "Approved"]
  ∧ Cell.str "Approved"
      ∉ [Cell.str "Elective", Cell.str "Major/Minor", Cell.str "Major/Minor, Elective"] := by
  refine ⟨rfl, by decide⟩

/-- Claim C5 (corrected): rule-sourced records always classify into the four
literals (so after filtering only the three non-empty ones remain on that
path), every record surviving the filter has a non-empty Type of Credit, and
every record whose stripped Type of Credit is non-empty survives — but
generative-sourced records carry whatever string the collaborator supplied,
so the output is not limited to the three literals. -/
theorem C5_credit_invariant :
    (∀ e m, classifyCredit e m = "" ∨
        classifyCredit e m ∈ (["Elective", "Major/Minor", "Major/Minor, Elective"] : List String))
  ∧ (∀ (rows : List CourseRecord) (r : CourseRecord), r ∈ filterStep rows → r.typeOfCredit ≠ "")
  ∧ (∀ (rows : List CourseRecord) (r : CourseRecord), r ∈ rows → pyStrip r.typeOfCredit ≠ "" →
        stripToc r ∈ filterStep rows) := by
  refine ⟨?_, ?_, ?_⟩
  · intro e m
    unfold classifyCredit
    split_ifs <;> simp
  · intro rows r h
    simp only [filterStep, List.mem_filter] at h
    simpa using h.2
  · intro rows r hmem hne
    simp only [filterStep, List.mem_filter, List.mem_map]
    exact ⟨⟨r, hmem, rfl⟩, by simpa [stripToc] using hne⟩

/-- Witness for claim C5: a surviving record has non-empty credit, and a
record with blank-padded credit survives in stripped form. -/
theorem C5_credit_invariant_witness :
    ({ blankRecord with typeOfCredit := "Approved" } : CourseRecord).typeOfCredit ≠ ""
  ∧ stripToc { blankRecord with typeOfCredit := " Elective " }
      ∈ filterStep [{ blankRecord with typeOfCredit := " Elective " }] := by
  refine ⟨?_, ?_⟩
  · exact C5_credit_invariant.2.1 [{ blankRecord with typeOfCredit := "Approved" }] _ (by decide)
  · exact C5_credit_invariant.2.2 [{ blankRecord with typeOfCredit := " Elective " }] _
      (by decide) (by decide)

/-! ### Claim C6 -/

/-- Counterexample to claim C6: the code normalization does not collapse
internal whitespace, and that changes the resolved program — on the value
`"a  b"` the code misses the exact match (step 1) and instead returns the
earlier directory entry by token subset (step 2), while the claimed collapsing
normalization resolves the exact match. -/
theorem C6_counterexample :
    matchProgramName "a  b" ["a b c", "a b"] = some "a b c"
  ∧ resolveClaimCollapse "a  b" ["a b c", "a b"] = some "a b"
  ∧ ("a b c" : String) ≠ "a b" := by
  refine ⟨by decide, by decide, by decide⟩

/-- Claim C6 (corrected): resolution normalizes by stripping "Star icon",
trimming and case-folding only — internal whitespace is not collapsed — and
then returns the first hit in the fixed order: exact normalized equality, then
symmetric token-subset, then the single best fuzzy match with ratio at least
0.6 mapped back to the directory; empty input, or input normalizing to no
tokens, yields no match. -/
theorem C6_resolution_order :
    (∀ l, matchProgramName "" l = none)
  ∧ (∀ v l, v ≠ "" → pySplitStr (normalizeProgramStr v) = [] → matchProgramName v l = none)
  ∧ (∀ v l p, v ≠ "" → pySplitStr (normalizeProgramStr v) ≠ [] →
        exactFind (normalizeProgramStr v) l = some p → matchProgramName v l = some p)
  ∧ (∀ v l p, v ≠ "" → pySplitStr (normalizeProgramStr v) ≠ [] →
        exactFind (normalizeProgramStr v) l = none →
        subsetFind (pySplitStr (normalizeProgramStr v)) l = some p →
        matchProgramName v l = some p)
  ∧ (∀ v l, v ≠ "" → pySplitStr (normalizeProgramStr v) ≠ [] →
        exactFind (normalizeProgramStr v) l = none →
        subsetFind (pySplitStr (normalizeProgramStr v)) l = none →
        matchProgramName v l =
          (match getCloseMatches1 (normalizeProgramStr v) (l.map normalizeProgramStr) with
           | some matchNorm => exactFind matchNorm l
           | none => none)) := by
  refine ⟨?_, ?_, ?_, ?_, ?_⟩
  · intro l
    simp [matchProgramName]
  · intro v l hv ht
    simp [matchProgramName, hv, ht]
  · intro v l p hv ht hex
    have ht2 : (pySplitStr (normalizeProgramStr v)).isEmpty = false := by
      cases h : pySplitStr (normalizeProgramStr v) with
      | nil => exact absurd h ht
      | cons a as => rfl
    simp [matchProgramName, hv, ht2, hex]
  · intro v l p hv ht hex hsub
    have ht2 : (pySplitStr (normalizeProgramStr v)).isEmpty = false := by
      cases h : pySplitStr (normalizeProgramStr v) with
      | nil => exact absurd h ht
      | cons a as => rfl
    simp [matchProgramName, hv, ht2, hex, hsub]
  · intro v l hv ht hex hsub
    have ht2 : (pySplitStr (normalizeProgramStr v)).isEmpty = false := by
      cases h : pySplitStr (normalizeProgramStr v) with
      | nil => exact absurd h ht
      | cons a as => rfl
    simp [matchProgramName, hv, ht2, hex, hsub]

/-- Witness for claim C6: the whitespace-only value matches nothing after
normalization, an exact hit is returned, a token-subset hit is returned when
no exact hit exists, and a value far from every entry falls through the fuzzy
cutoff to no match. -/
theorem C6_resolution_order_witness :
    matchProgramName "Star icon" ["Beta House"] = none
  ∧ matchProgramName "Beta House" ["Beta House"] = some "Beta House"
  ∧ matchProgramName "Harbor Copenhagen" ["Harbor Copenhagen Denmark"]
      = some "Harbor Copenhagen Denmark"
  ∧ matchProgramName "Zeta" ["Qrs"] = none := by
  refine ⟨?_, ?_, ?_, ?_⟩
  · exact C6_resolution_order.2.1 "Star icon" ["Beta House"] (by decide) (by decide)
  · exact C6_resolution_order.2.2.1 "Beta House" ["Beta House"] "Beta House"
      (by decide) (by decide) (by decide)
  · exact C6_resolution_order.2.2.2.1 "Harbor Copenhagen" ["Harbor Copenhagen Denmark"]
      "Harbor Copenhagen Denmark" (by decide) (by decide) (by decide) (by decide)
  · exact (C6_resolution_order.2.2.2.2 "Zeta" ["Qrs"]
      (by decide) (by decide) (by decide) (by decide)).trans (by decide)
